import Mathlib

/-!
Shallow embedding of the PawStore storefront frontend
(`src/frontend/src/App.js`).

The component keeps React state (products, cart, selected product, modal
flags, session id, loading flag, customer form) and performs six
asynchronous operations against the backend.  Each operation is modelled as
a pure function from the current state together with the outcome of its
network round-trip (`none` = the fetch or the JSON parse threw, `some r` =
the parsed response) to the new state, the list of user-visible effects
(`console.error` / `alert`) and the list of HTTP requests it issued.
-/

namespace Shopi

/-- A product record as consumed from `GET /api/products`
(fields per the transport JSON). -/
structure Product where
  id : Nat
  name : String
  description : String
  price : Int
  original_price : Option Int
  discount_percentage : Option Int
  rating : Int
  reviews_count : Nat
  image_url : String
  images : List String
  features : List String
deriving DecidableEq, Repr

/-- One cart line as transported by the backend. -/
structure CartItem where
  product_id : Nat
  quantity : Int
  price : Int
deriving DecidableEq, Repr

/-- The cart object: `{ items, total }`, totals computed by the backend. -/
structure Cart where
  items : List CartItem
  total : Int
deriving DecidableEq, Repr

/-- The checkout form state (`customerInfo` in App.js). -/
structure CustomerInfo where
  name : String
  email : String
  phone : String
  address : String
deriving DecidableEq, Repr

/-- The React state of the `App` component (the `useState` hooks,
App.js lines 7-19). -/
structure AppState where
  products : List Product
  cart : Cart
  selectedProduct : Option Product
  showCart : Bool
  showCheckout : Bool
  sessionId : String
  loading : Bool
  customerInfo : CustomerInfo
deriving DecidableEq, Repr

/-- The initial hook values; `sid` is the value produced once by
`Math.random().toString(36).substring(7)` at component initialization
(App.js line 12) - there is no setter for it. -/
def initState (sid : String) : AppState :=
  { products := []
    cart := { items := [], total := 0 }
    selectedProduct := none
    showCart := false
    showCheckout := false
    sessionId := sid
    loading := true
    customerInfo := { name := "", email := "", phone := "", address := "" } }

/-- The order payload built in `submitOrder` (App.js lines 87-92): it has
exactly the four fields `session_id`, `items`, `total`, `customer_info`. -/
structure OrderData where
  session_id : String
  items : List CartItem
  total : Int
  customer_info : CustomerInfo
deriving DecidableEq, Repr

/-- One HTTP request as issued by a `fetch` call, with the data that the
URL (and body) carries. -/
inductive Request where
  | getProducts
  | getCart (sessionId : String)
  | postCartAdd (sessionId : String) (productId : Nat) (quantity : Int)
  | putCartUpdate (sessionId : String) (productId : Nat) (quantity : Int)
  | deleteCartRemove (sessionId : String) (productId : Nat)
  | postOrder (body : OrderData)
deriving DecidableEq, Repr

/-- The six backend endpoints the component can contact. -/
inductive Endpoint where
  | productsList
  | cartGet
  | cartAdd
  | cartUpdate
  | cartRemove
  | ordersCreate
deriving DecidableEq, Repr

/-- Which endpoint a request targets. -/
def Request.endpoint : Request → Endpoint
  | .getProducts => .productsList
  | .getCart _ => .cartGet
  | .postCartAdd _ _ _ => .cartAdd
  | .putCartUpdate _ _ _ => .cartUpdate
  | .deleteCartRemove _ _ => .cartRemove
  | .postOrder _ => .ordersCreate

/-- The session identifier a request is keyed by, when it has one
(the products listing is not session-scoped). -/
def Request.sessionKey : Request → Option String
  | .getProducts => none
  | .getCart sid => some sid
  | .postCartAdd sid _ _ => some sid
  | .putCartUpdate sid _ _ => some sid
  | .deleteCartRemove sid _ => some sid
  | .postOrder body => some body.session_id

/-- A user-visible side effect of an operation. -/
inductive Effect where
  | consoleError (msg : String)
  | alert (msg : String)
deriving DecidableEq, Repr

/-- The parsed body of `GET /api/products`: the code reads `data.products`
(App.js line 30); any further fields of the JSON are untouched. -/
structure ProductsResponse where
  products : List Product
  extraFields : List (String × String)
deriving DecidableEq, Repr

/-- The parsed body of the add/update cart mutations: the code reads
`data.cart` (App.js lines 54 and 67); any further fields are untouched. -/
structure CartMutationResponse where
  cart : Cart
  extraFields : List (String × String)
deriving DecidableEq, Repr

/-- The parsed body of `POST /api/orders`: the code reads `data.order_id`
(App.js line 103), which may be absent from the JSON. -/
structure OrderResponse where
  order_id : Option String
  extraFields : List (String × String)
deriving DecidableEq, Repr

/-- `fetchProducts` (App.js lines 26-36): on success store
`data.products`; on error log to the console; either way the `finally`
clause clears `loading`. -/
def fetchProducts (s : AppState) (outcome : Option ProductsResponse) :
    AppState × List Effect × List Request :=
  match outcome with
  | some data =>
      ({ s with products := data.products, loading := false }, [],
       [Request.getProducts])
  | none =>
      ({ s with loading := false },
       [Effect.consoleError "Error fetching products:"],
       [Request.getProducts])

/-- `fetchCart` (App.js lines 38-46): `setCart(data)` stores the whole
parsed response as the cart; on error only a console log. -/
def fetchCart (s : AppState) (outcome : Option Cart) :
    AppState × List Effect × List Request :=
  match outcome with
  | some data =>
      ({ s with cart := data }, [], [Request.getCart s.sessionId])
  | none =>
      (s, [Effect.consoleError "Error fetching cart:"],
       [Request.getCart s.sessionId])

/-- `addToCart` (App.js lines 48-59): POST to
`/api/cart/{sessionId}/add?product_id=..&quantity=..`, then
`setCart(data.cart)` and a success alert; on error only a console log. -/
def addToCart (s : AppState) (productId : Nat) (quantity : Int)
    (outcome : Option CartMutationResponse) :
    AppState × List Effect × List Request :=
  match outcome with
  | some data =>
      ({ s with cart := data.cart },
       [Effect.alert "Item added to cart!"],
       [Request.postCartAdd s.sessionId productId quantity])
  | none =>
      (s, [Effect.consoleError "Error adding to cart:"],
       [Request.postCartAdd s.sessionId productId quantity])

/-- `updateCartItem` (App.js lines 61-71): PUT to
`/api/cart/{sessionId}/update?product_id=..&quantity=..`, then
`setCart(data.cart)`; on error only a console log. -/
def updateCartItem (s : AppState) (productId : Nat) (quantity : Int)
    (outcome : Option CartMutationResponse) :
    AppState × List Effect × List Request :=
  match outcome with
  | some data =>
      ({ s with cart := data.cart }, [],
       [Request.putCartUpdate s.sessionId productId quantity])
  | none =>
      (s, [Effect.consoleError "Error updating cart:"],
       [Request.putCartUpdate s.sessionId productId quantity])

/-- `removeFromCart` (App.js lines 73-82): DELETE to
`/api/cart/{sessionId}/remove/{productId}`; if the DELETE round-trip
succeeds the code calls `fetchCart()` to refresh the cart from the
server; if it throws, only a console log (and no refresh). -/
def removeFromCart (s : AppState) (productId : Nat)
    (deleteOutcome : Option Unit) (cartOutcome : Option Cart) :
    AppState × List Effect × List Request :=
  match deleteOutcome with
  | some _ =>
      let next := fetchCart s cartOutcome
      (next.1, next.2.1,
       Request.deleteCartRemove s.sessionId productId :: next.2.2)
  | none =>
      (s, [Effect.consoleError "Error removing from cart:"],
       [Request.deleteCartRemove s.sessionId productId])

/-- The `orderData` object built in `submitOrder` (App.js lines 87-92):
all four fields taken unmodified from the current state. -/
def orderData (s : AppState) : OrderData :=
  { session_id := s.sessionId
    items := s.cart.items
    total := s.cart.total
    customer_info := s.customerInfo }

/-- `submitOrder` (App.js lines 84-112): POST the order payload; on
success alert the order id, close both modals, reset the cart to
`{ items: [], total: 0 }` and blank the customer form; on error a console
log plus an error alert, touching no state. -/
def submitOrder (s : AppState) (outcome : Option OrderResponse) :
    AppState × List Effect × List Request :=
  match outcome with
  | some data =>
      ({ s with
          showCheckout := false
          showCart := false
          cart := { items := [], total := 0 }
          customerInfo := { name := "", email := "", phone := "", address := "" } },
       [Effect.alert
         ("Order submitted successfully! Order ID: " ++ data.order_id.getD "undefined")],
       [Request.postOrder (orderData s)])
  | none =>
      (s,
       [Effect.consoleError "Error submitting order:",
        Effect.alert "Error submitting order. Please try again."],
       [Request.postOrder (orderData s)])

/-- The header badge label `Cart (n)` (App.js line 143): the number of
cart lines. -/
def cartBadgeItemCount (c : Cart) : Nat := c.items.length

/-- The red badge shown when the cart is nonempty (App.js line 146):
`cart.items.reduce((sum, item) => sum + item.quantity, 0)` - a
client-side fold over the items. -/
def cartBadgeQuantitySum (c : Cart) : Int :=
  c.items.foldl (fun acc it => acc + it.quantity) 0

/-- The total shown in the cart modal (App.js line 429):
`cart.total.toFixed(2)` - the server-computed field, unmodified. -/
def cartTotalDisplay (c : Cart) : Int := c.total

/-- The total shown in the checkout modal (App.js line 515): again
`cart.total`. -/
def checkoutTotalDisplay (c : Cart) : Int := c.total

/-- The distinct view surfaces the component can render. -/
inductive Surface where
  | loadingScreen
  | catalog
  | productModal
  | cartModal
  | checkoutModal
deriving DecidableEq, Repr

/-- What the component renders (App.js lines 114-529): while `loading`
it early-returns the spinner screen; otherwise the catalog page, plus the
product modal iff `selectedProduct` is set (line 282), the cart modal iff
`showCart` (line 359), the checkout modal iff `showCheckout` (line 454). -/
def shownSurfaces (s : AppState) : List Surface :=
  if s.loading then [Surface.loadingScreen]
  else
    [Surface.catalog]
      ++ (if s.selectedProduct.isSome then [Surface.productModal] else [])
      ++ (if s.showCart then [Surface.cartModal] else [])
      ++ (if s.showCheckout then [Surface.checkoutModal] else [])

/-- The quantity-decrement button of a cart line (App.js line 403):
`updateCartItem(item.product_id, item.quantity - 1)` - no lower bound is
applied before the call. -/
def decrementClick (s : AppState) (item : CartItem)
    (outcome : Option CartMutationResponse) :
    AppState × List Effect × List Request :=
  updateCartItem s item.product_id (item.quantity - 1) outcome

/-- The quantity-increment button of a cart line (App.js line 410):
`updateCartItem(item.product_id, item.quantity + 1)`. -/
def incrementClick (s : AppState) (item : CartItem)
    (outcome : Option CartMutationResponse) :
    AppState × List Effect × List Request :=
  updateCartItem s item.product_id (item.quantity + 1) outcome

/-- A concrete state used to instantiate the view-surface theorem: the
catalog has loaded and the user has opened the cart modal. -/
def cartOpenState : AppState :=
  { initState "abc" with loading := false, showCart := true }

/-- A concrete product record used to instantiate render states. -/
def sampleProduct : Product :=
  { id := 1
    name := "Brush"
    description := "A brush"
    price := 10
    original_price := none
    discount_percentage := none
    rating := 5
    reviews_count := 3
    image_url := "img"
    images := []
    features := [] }

/-- Folding `+ quantity` over cart items sums the mapped quantities. -/
theorem foldl_add_quantity (l : List CartItem) (a : Int) :
    l.foldl (fun acc it => acc + it.quantity) a
      = a + (l.map CartItem.quantity).sum := by
  induction l generalizing a with
  | nil => simp
  | cons x xs ih => simp [List.foldl_cons, ih, add_assoc]

/-- C1: each cart mutation round-trips to the backend and, on success,
replaces the local cart with the server-returned cart (`data.cart` for
add/update; the refreshed `GET /api/cart` body for remove); on any
failure, and while the round-trip is pending, the local state is left
untouched - there is no local-first modification. -/
theorem cart_mutations_are_server_authoritative
    (s : AppState) (pid : Nat) (q : Int)
    (r : CartMutationResponse) (c : Cart) :
    (addToCart s pid q (some r)).1.cart = r.cart ∧
    (updateCartItem s pid q (some r)).1.cart = r.cart ∧
    (removeFromCart s pid (some ()) (some c)).1.cart = c ∧
    (addToCart s pid q none).1 = s ∧
    (updateCartItem s pid q none).1 = s ∧
    (removeFromCart s pid none (some c)).1 = s ∧
    (removeFromCart s pid none none).1 = s ∧
    (removeFromCart s pid (some ()) none).1 = s ∧
    (addToCart s pid q (some r)).2.2 = [Request.postCartAdd s.sessionId pid q] ∧
    (updateCartItem s pid q (some r)).2.2 = [Request.putCartUpdate s.sessionId pid q] ∧
    (removeFromCart s pid (some ()) (some c)).2.2 =
      [Request.deleteCartRemove s.sessionId pid, Request.getCart s.sessionId] :=
  ⟨rfl, rfl, rfl, rfl, rfl, rfl, rfl, rfl, rfl, rfl, rfl⟩

/-- C2: whenever the fetch or the JSON parse of an operation fails, the
operation reports the error exactly through `console.error` (for
`submitOrder`, `console.error` followed by an error alert), issues no
retry (the request list of the failing run is the single original
request, plus - for a failed cart refresh after a successful DELETE -
the refresh request that is part of the normal remove flow), and, being a
total function of the outcome, never propagates the exception. -/
theorem failures_reported_console_only
    (s : AppState) (pid : Nat) (q : Int) :
    (fetchProducts s none).2.1 = [Effect.consoleError "Error fetching products:"] ∧
    (fetchCart s none).2.1 = [Effect.consoleError "Error fetching cart:"] ∧
    (addToCart s pid q none).2.1 = [Effect.consoleError "Error adding to cart:"] ∧
    (updateCartItem s pid q none).2.1 = [Effect.consoleError "Error updating cart:"] ∧
    (removeFromCart s pid none none).2.1 =
      [Effect.consoleError "Error removing from cart:"] ∧
    (removeFromCart s pid (some ()) none).2.1 =
      [Effect.consoleError "Error fetching cart:"] ∧
    (submitOrder s none).2.1 =
      [Effect.consoleError "Error submitting order:",
       Effect.alert "Error submitting order. Please try again."] ∧
    (fetchProducts s none).2.2 = [Request.getProducts] ∧
    (fetchCart s none).2.2 = [Request.getCart s.sessionId] ∧
    (addToCart s pid q none).2.2 = [Request.postCartAdd s.sessionId pid q] ∧
    (updateCartItem s pid q none).2.2 = [Request.putCartUpdate s.sessionId pid q] ∧
    (removeFromCart s pid none none).2.2 = [Request.deleteCartRemove s.sessionId pid] ∧
    (submitOrder s none).2.2 = [Request.postOrder (orderData s)] :=
  ⟨rfl, rfl, rfl, rfl, rfl, rfl, rfl, rfl, rfl, rfl, rfl, rfl, rfl⟩

/-- C3 counterexample: the header badge is computed client-side by
summing item quantities; on the cart with quantities 2 and 3 and total
100, the badge shows 5, which is neither the server-computed `total` nor
any quantity transported in the cart - so not every quantity summary
shown is taken from a server-computed field. -/
theorem cart_badge_is_client_computed_sum :
    cartBadgeQuantitySum { items := [⟨1, 2, 5⟩, ⟨2, 3, 7⟩], total := 100 } = 5 ∧
    cartBadgeQuantitySum { items := [⟨1, 2, 5⟩, ⟨2, 3, 7⟩], total := 100 } ≠
      cartTotalDisplay { items := [⟨1, 2, 5⟩, ⟨2, 3, 7⟩], total := 100 } ∧
    cartBadgeQuantitySum { items := [⟨1, 2, 5⟩, ⟨2, 3, 7⟩], total := 100 } ∉
      (({ items := [⟨1, 2, 5⟩, ⟨2, 3, 7⟩], total := 100 } : Cart)).items.map
        CartItem.quantity := by
  decide

/-- C3 amended: the monetary totals rendered in the cart and checkout
modals are the server-computed `cart.total`, unmodified, and the cart
button count is the plain length of the item list; but the red badge is
a client-side derived computation - the sum of the item quantities. -/
theorem totals_server_side_badge_summed_client_side (c : Cart) :
    cartTotalDisplay c = c.total ∧
    checkoutTotalDisplay c = c.total ∧
    cartBadgeItemCount c = c.items.length ∧
    cartBadgeQuantitySum c = (c.items.map CartItem.quantity).sum := by
  refine ⟨rfl, rfl, rfl, ?_⟩
  simp [cartBadgeQuantitySum, foldl_add_quantity]

/-- C4: a failed order submission leaves the whole component state
untouched (cart, customer form, both modal flags included); its only
effects are the console log and the error alert. -/
theorem submitOrder_failure_preserves_state (s : AppState) :
    (submitOrder s none).1 = s ∧
    (submitOrder s none).2.1 =
      [Effect.consoleError "Error submitting order:",
       Effect.alert "Error submitting order. Please try again."] :=
  ⟨rfl, rfl⟩

/-- C5: a successful order submission - whatever the parsed response
contains - empties the cart, blanks every customer-info field, closes
both the checkout and the cart modal, and issues no request beyond the
single `POST /api/orders`. -/
theorem submitOrder_success_clears_state (s : AppState) (r : OrderResponse) :
    (submitOrder s (some r)).1.cart = { items := [], total := 0 } ∧
    (submitOrder s (some r)).1.customerInfo =
      { name := "", email := "", phone := "", address := "" } ∧
    (submitOrder s (some r)).1.showCheckout = false ∧
    (submitOrder s (some r)).1.showCart = false ∧
    (submitOrder s (some r)).2.2 = [Request.postOrder (orderData s)] :=
  ⟨rfl, rfl, rfl, rfl, rfl⟩

/-- C6: the session identifier is fixed at initialization (the hook has
no setter, so every operation preserves it) and keys every cart request
URL; the order payload carries it as `session_id`. -/
theorem sessionId_fixed_and_keys_requests
    (sid : String) (s : AppState) (pid : Nat) (q : Int)
    (po : Option ProductsResponse) (co : Option Cart)
    (mo : Option CartMutationResponse) (oo : Option OrderResponse) :
    (initState sid).sessionId = sid ∧
    (fetchProducts s po).1.sessionId = s.sessionId ∧
    (fetchCart s co).1.sessionId = s.sessionId ∧
    (addToCart s pid q mo).1.sessionId = s.sessionId ∧
    (updateCartItem s pid q mo).1.sessionId = s.sessionId ∧
    (removeFromCart s pid none co).1.sessionId = s.sessionId ∧
    (removeFromCart s pid (some ()) co).1.sessionId = s.sessionId ∧
    (submitOrder s oo).1.sessionId = s.sessionId ∧
    (fetchCart s co).2.2 = [Request.getCart s.sessionId] ∧
    (addToCart s pid q mo).2.2 = [Request.postCartAdd s.sessionId pid q] ∧
    (updateCartItem s pid q mo).2.2 = [Request.putCartUpdate s.sessionId pid q] ∧
    (removeFromCart s pid none co).2.2 = [Request.deleteCartRemove s.sessionId pid] ∧
    (removeFromCart s pid (some ()) co).2.2 =
      [Request.deleteCartRemove s.sessionId pid, Request.getCart s.sessionId] ∧
    (orderData s).session_id = s.sessionId := by
  cases po <;> cases co <;> cases mo <;> cases oo <;>
    exact ⟨rfl, rfl, rfl, rfl, rfl, rfl, rfl, rfl, rfl, rfl, rfl, rfl, rfl, rfl⟩

/-- C7: the order payload is exactly the four-field record
`{ session_id, items, total, customer_info }` (the `OrderData` structure
has no other field, witnessed by its eta law), with `items` and `total`
taken unmodified from the local cart and `customer_info` the current
form state; `submitOrder` sends exactly this payload. -/
theorem order_payload_exactly_four_fields
    (s : AppState) (oo : Option OrderResponse) :
    (orderData s).session_id = s.sessionId ∧
    (orderData s).items = s.cart.items ∧
    (orderData s).total = s.cart.total ∧
    (orderData s).customer_info = s.customerInfo ∧
    (submitOrder s oo).2.2 = [Request.postOrder (orderData s)] ∧
    (∀ d : OrderData,
      d = { session_id := d.session_id, items := d.items,
            total := d.total, customer_info := d.customer_info }) := by
  refine ⟨rfl, rfl, rfl, rfl, ?_, fun d => rfl⟩
  cases oo <;> rfl

/-- C8 counterexample: `removeFromCart` does not stay on its own
endpoint - after a successful DELETE it also calls `GET /api/cart` to
refresh, contacting two distinct endpoints in one operation; moreover
the component can contact six distinct endpoints in total, not five. -/
theorem removeFromCart_contacts_two_endpoints :
    ((removeFromCart (initState "abc") 1 (some ())
        (some { items := [], total := 0 })).2.2.map Request.endpoint) =
      [Endpoint.cartRemove, Endpoint.cartGet] ∧
    Endpoint.cartRemove ≠ Endpoint.cartGet ∧
    ([Endpoint.productsList, Endpoint.cartGet, Endpoint.cartAdd,
      Endpoint.cartUpdate, Endpoint.cartRemove, Endpoint.ordersCreate].Nodup ∧
     [Endpoint.productsList, Endpoint.cartGet, Endpoint.cartAdd,
      Endpoint.cartUpdate, Endpoint.cartRemove, Endpoint.ordersCreate].length = 6) := by
  decide

/-- C8 amended: the component contacts exactly six distinct endpoints
(list products, get cart, add, update, remove, create order); each
operation contacts only its own endpoint, except `removeFromCart`, which
after a successful DELETE additionally re-fetches the cart. -/
theorem six_endpoints_one_per_operation
    (s : AppState) (pid : Nat) (q : Int)
    (po : Option ProductsResponse) (co : Option Cart)
    (mo : Option CartMutationResponse) (oo : Option OrderResponse) :
    (fetchProducts s po).2.2.map Request.endpoint = [Endpoint.productsList] ∧
    (fetchCart s co).2.2.map Request.endpoint = [Endpoint.cartGet] ∧
    (addToCart s pid q mo).2.2.map Request.endpoint = [Endpoint.cartAdd] ∧
    (updateCartItem s pid q mo).2.2.map Request.endpoint = [Endpoint.cartUpdate] ∧
    (removeFromCart s pid none co).2.2.map Request.endpoint = [Endpoint.cartRemove] ∧
    (removeFromCart s pid (some ()) co).2.2.map Request.endpoint =
      [Endpoint.cartRemove, Endpoint.cartGet] ∧
    (submitOrder s oo).2.2.map Request.endpoint = [Endpoint.ordersCreate] ∧
    [Endpoint.productsList, Endpoint.cartGet, Endpoint.cartAdd,
     Endpoint.cartUpdate, Endpoint.cartRemove, Endpoint.ordersCreate].Nodup := by
  cases po <;> cases co <;> cases mo <;> cases oo <;>
    exact ⟨rfl, rfl, rfl, rfl, rfl, rfl, rfl, by decide⟩

/-- C9 counterexample: the render logic has four reachable non-loading
view surfaces - catalog, product modal, cart modal, checkout modal (each
exhibited at a concrete state below) - and these are pairwise distinct,
so the set of view states named by the spec has cardinality 4, not 3. -/
theorem four_view_surfaces_not_three :
    Surface.catalog ∈ shownSurfaces { initState "abc" with loading := false } ∧
    Surface.productModal ∈ shownSurfaces
      { initState "abc" with loading := false, selectedProduct := some sampleProduct } ∧
    Surface.cartModal ∈ shownSurfaces cartOpenState ∧
    Surface.checkoutModal ∈ shownSurfaces
      { initState "abc" with loading := false, showCheckout := true } ∧
    ([Surface.catalog, Surface.productModal, Surface.cartModal,
      Surface.checkoutModal].Nodup ∧
     [Surface.catalog, Surface.productModal, Surface.cartModal,
      Surface.checkoutModal].length = 4 ∧ (4 : Nat) ≠ 3) := by
  decide

/-- C9 amended: once loading has finished, the component renders the
catalog plus three independent overlays - the product modal exactly when
`selectedProduct` is set, the cart modal exactly when `showCart`, the
checkout modal exactly when `showCheckout` - four view surfaces in all
(the loading spinner being a fifth, pre-catalog screen). -/
theorem modal_shown_iff_flag_set (s : AppState) (h : s.loading = false) :
    (Surface.productModal ∈ shownSurfaces s ↔ s.selectedProduct.isSome) ∧
    (Surface.cartModal ∈ shownSurfaces s ↔ s.showCart) ∧
    (Surface.checkoutModal ∈ shownSurfaces s ↔ s.showCheckout) ∧
    Surface.catalog ∈ shownSurfaces s ∧
    Surface.loadingScreen ∉ shownSurfaces s := by
  cases s with
  | mk pr ca sel sc sk sid ld ci =>
    subst h
    cases sel <;> cases sc <;> cases sk <;> simp [shownSurfaces]

/-- Witness for the amended C9 theorem at the concrete state with the
cart modal open. -/
theorem modal_shown_iff_flag_set_witness :
    cartOpenState.loading = false ∧
    ((Surface.productModal ∈ shownSurfaces cartOpenState ↔
        cartOpenState.selectedProduct.isSome) ∧
     (Surface.cartModal ∈ shownSurfaces cartOpenState ↔ cartOpenState.showCart) ∧
     (Surface.checkoutModal ∈ shownSurfaces cartOpenState ↔
        cartOpenState.showCheckout) ∧
     Surface.catalog ∈ shownSurfaces cartOpenState ∧
     Surface.loadingScreen ∉ shownSurfaces cartOpenState) :=
  ⟨rfl, modal_shown_iff_flag_set cartOpenState rfl⟩

/-- C10: the decrement button always requests `quantity - 1` for the
item, with no lower bound: an item at quantity 1 yields an update
request with quantity 0, and one at quantity 0 would yield -1. -/
theorem decrement_sends_quantity_minus_one
    (s : AppState) (item : CartItem) (mo : Option CartMutationResponse) :
    (decrementClick s item mo).2.2 =
      [Request.putCartUpdate s.sessionId item.product_id (item.quantity - 1)] ∧
    (decrementClick s { item with quantity := 1 } mo).2.2 =
      [Request.putCartUpdate s.sessionId item.product_id 0] ∧
    (decrementClick s { item with quantity := 0 } mo).2.2 =
      [Request.putCartUpdate s.sessionId item.product_id (-1)] := by
  cases mo <;> exact ⟨rfl, rfl, rfl⟩

end Shopi
